import Mathlib

/-!
Verification of `pkg/make-release/dist_builder.go`: the distribution build
orchestrator (`DistBuilder.Build`), its build steps, and the parallel task
runner (`runParallel`).

Modelling conventions:
* Go errors built with `errors.New` / `errors.Newf` / `errors.Wrap` /
  `errors.Wrapf` are modelled by the inductive `GoError`; `Wrapf` label
  formatting is performed by string concatenation.
* External collaborators (the Go/Rust compiler invocations, `os.MkdirAll`,
  `os.RemoveAll`, `os.WriteFile`, the `cp` subprocess, `TarGzip`, the GitHub
  downloader) are opaque fallible operations; each model takes their outcome
  (`Option GoError`, `none` = success) as an explicit argument and the model
  reproduces the control flow of the Go function around those outcomes.
* Concurrency in `runParallel` is modelled by an explicit schedule `sched`:
  the order in which the launched goroutines finish and (on failure) acquire
  the mutex around the shared `firstErr` slot.  Quantifying over all
  permutations of the step indices covers every interleaving; `wg.Wait`
  returning corresponds to the whole schedule having been consumed.
* Logging (`zerolog`) has no observable effect on results and is not
  modelled.
-/

set_option autoImplicit false

/-- Model of a `github.com/cockroachdb/errors` error value: either a fresh
error (`errors.New` / `errors.Newf`, with the formatted message) or a wrapped
error (`errors.Wrap` / `errors.Wrapf`, keeping the cause). -/
inductive GoError where
  | new (msg : String)
  | wrap (cause : GoError) (msg : String)
  deriving DecidableEq, Repr

/-- Modelled from the spec: the version-channel classification type returned
by `version.ChannelFor` (the `encr.dev/internal/version` package is not part
of the sources under verification).  The spec names exactly four channels —
general availability, beta, nightly, development build — and says any other
channel value is fatal; `other` stands for any such further value. -/
inductive Channel where
  | GA
  | Beta
  | Nightly
  | DevBuild
  | other (value : String)
  deriving DecidableEq, Repr

/-- Modelled from the spec: the `JSPackager` async producer handle (defined
outside the sources under verification).  `dist_builder.go` observes it only
after its one-shot completion signal `compileCompleted` has fired, so the
model carries the settled value of the `compileFailed` flag together with the
declared output directory `DistFolder`. -/
structure JSPackager where
  compileFailed : Bool
  DistFolder : String
  deriving DecidableEq, Repr

/-- The `DistBuilder` struct of `dist_builder.go` (the `log` field is a
logger and is not modelled). -/
structure DistBuilder where
  OS : String
  Arch : String
  TSParserPath : String
  DistBuildDir : String
  ArtifactsTarFile : String
  Version : String
  jsBuilder : JSPackager
  deriving DecidableEq, Repr

/-- Model of Go `filepath.Join` for the arguments used here: non-empty
components are joined with `/` and `Clean` drops `.` components (no `..` or
repeated separators occur in these call sites). -/
def goFilepathJoin (parts : List String) : String :=
  String.intercalate "/" ((parts.filter (fun p => p ≠ "")).filter (fun c => c ≠ "."))

/-- The mutex-guarded recording of the outcome of one finished goroutine
into the shared `firstErr` slot of `runParallel`: a success leaves the slot
alone, a failure fills the slot only if it is still empty. -/
def recordOutcome (slot : Option GoError) (outcome : Option GoError) : Option GoError :=
  match outcome with
  | none => slot
  | some e =>
    match slot with
    | none => some e
    | some e0 => some e0

/-- The `firstErr` slot of `runParallel` after the goroutines listed in
`sched` have finished, starting from slot contents `acc`. -/
def runParallelFrom (results : List (Option GoError)) (acc : Option GoError)
    (sched : List Nat) : Option GoError :=
  sched.foldl (fun slot i => recordOutcome slot (results.getD i none)) acc

/-- Model of `runParallel` at the level of step outcomes: `results` lists the
(fixed, state-independent) error result of each of the `functions ...func()
error` closures, and `sched` is the order in which the goroutines finish and
reach the mutex.  `wg.Wait` blocks until every goroutine has called
`wg.Done`, i.e. until the whole schedule is consumed, and the final value of
the `firstErr` slot is returned. -/
def runParallel (results : List (Option GoError)) (sched : List Nat) : Option GoError :=
  runParallelFrom results none sched

/-- State of the `runParallel` execution model with explicit step effects:
the shared mutable state `st` the steps act on, the mutex-guarded `firstErr`
slot, and the list of step indices whose goroutine has completed (called
`wg.Done`), in completion order. -/
structure RunState (σ : Type) where
  st : σ
  firstErr : Option GoError
  completed : List Nat
  deriving Repr

/-- One scheduling step of the `runParallel` execution model: goroutine `i`
(if it exists) runs its closure on the current state, records its outcome in
the `firstErr` slot under the mutex, and signals `wg.Done`. -/
def runOne {σ : Type} (steps : List (σ → σ × Option GoError)) (acc : RunState σ)
    (i : Nat) : RunState σ :=
  match steps.get? i with
  | none => acc
  | some f =>
    let r := f acc.st
    { st := r.1
      firstErr := recordOutcome acc.firstErr r.2
      completed := acc.completed ++ [i] }

/-- Model of `runParallel` with explicit step effects: every goroutine in the
schedule runs to completion (none is cancelled), `wg.Wait` returns once the
whole schedule is consumed, and the final `firstErr` slot is the returned
error. -/
def runParallelExec {σ : Type} (steps : List (σ → σ × Option GoError)) (sched : List Nat)
    (s0 : σ) : RunState σ :=
  sched.foldl (runOne steps) { st := s0, firstErr := none, completed := [] }

/-- The version linker flag always passed by `buildEncoreCLI`:
`-X \x27encr.dev/internal/version.Version=<version>\x27` (with literal single quotes). -/
def versionLinkerOpts (version : String) : List String :=
  ["-X", "\x27encr.dev/internal/version.Version=" ++ version ++ "\x27"]

/-- The default-config-directory linker flag `buildEncoreCLI` appends when
the version suffix is non-empty:
`-X \x27encr.dev/internal/conf.defaultConfigDirectory=encore<suffix>\x27` (with literal single quotes). -/
def confDirLinkerOpts (suffix : String) : List String :=
  ["-X", "\x27encr.dev/internal/conf.defaultConfigDirectory=encore" ++ suffix ++ "\x27"]

/-- The `switch version.ChannelFor(d.Version)` of `buildEncoreCLI`: maps each
channel to the binary-name suffix, and any other channel to the error
`unknown version channel for <version>`. -/
def versionSuffixFor (version : String) (c : Channel) : Except GoError String :=
  match c with
  | Channel.GA => Except.ok ""
  | Channel.Beta => Except.ok "-beta"
  | Channel.Nightly => Except.ok "-nightly"
  | Channel.DevBuild => Except.ok "-develop"
  | Channel.other _ => Except.error (GoError.new ("unknown version channel for " ++ version))

/-- Observable outcome of `DistBuilder.buildEncoreCLI`: the linker options
accumulated for `CompileGoBinary`, the output path, whether the compiler was
invoked, and the returned error. -/
structure CLITrace where
  linkerOpts : List String
  outputPath : String
  compiled : Bool
  result : Option GoError
  deriving DecidableEq, Repr

/-- Model of `DistBuilder.buildEncoreCLI`.  `channelFor` abstracts
`version.ChannelFor` (outside the sources under verification);
`compileResult` is the outcome of the `CompileGoBinary` collaborator. -/
def DistBuilder.buildEncoreCLI (d : DistBuilder) (channelFor : String → Channel)
    (compileResult : Option GoError) : CLITrace :=
  let linkerOpts := versionLinkerOpts d.Version
  match versionSuffixFor d.Version (channelFor d.Version) with
  | Except.error e => { linkerOpts := linkerOpts, outputPath := "", compiled := false, result := some e }
  | Except.ok versionSuffix =>
    let linkerOpts :=
      if versionSuffix ≠ "" then linkerOpts ++ confDirLinkerOpts versionSuffix
      else linkerOpts
    let outputPath := goFilepathJoin [d.DistBuildDir, "bin", "encore" ++ versionSuffix]
    match compileResult with
    | some e =>
      { linkerOpts := linkerOpts, outputPath := outputPath, compiled := true
        result := some (GoError.wrap e "compile encore") }
    | none =>
      { linkerOpts := linkerOpts, outputPath := outputPath, compiled := true, result := none }

/-- The `switch d.OS` of `buildNodePlugin` resolving the compiled artifact
filename, with any other OS fatal. -/
def compiledBinaryNameFor (os : String) : Except GoError String :=
  if os = "darwin" then Except.ok "libencore_js_runtime.dylib"
  else if os = "linux" then Except.ok "libencore_js_runtime.so"
  else if os = "windows" then Except.ok "encore_js_runtime.dll"
  else Except.error (GoError.new ("unknown OS: " ++ os))

/-- The path `buildNodePlugin` writes the version stamp to:
`filepath.Join(".", "runtimes", "jscore", "api", "version.cjs")`. -/
def nodePluginVersionPath : String :=
  goFilepathJoin [".", "runtimes", "jscore", "api", "version.cjs"]

/-- The full contents `buildNodePlugin` writes to the version-stamp file; the
only varying part is the version string. -/
def nodePluginVersionContents (version : String) : String :=
  "// Code generated by /pkg/make-release. DO NOT EDIT.\n\n" ++
  "/**\n * The version of the runtime this JS bundle was built for\n */\n" ++
  "module.exports.version = \"" ++ version ++ "\";\n"

/-- Observable outcome of `DistBuilder.buildNodePlugin`: whether the
version-stamp write was attempted and with which path and contents, whether
`CompileRustBinary` was invoked, and the returned error. -/
structure NodePluginTrace where
  writeAttempted : Bool
  versionFilePath : Option String
  versionFileContents : Option String
  compileAttempted : Bool
  result : Option GoError
  deriving DecidableEq, Repr

/-- Model of `DistBuilder.buildNodePlugin`.  `writeResult` is the outcome of
`os.WriteFile`, `compileResult` that of `CompileRustBinary`. -/
def DistBuilder.buildNodePlugin (d : DistBuilder) (writeResult compileResult : Option GoError) :
    NodePluginTrace :=
  match compiledBinaryNameFor d.OS with
  | Except.error e =>
    { writeAttempted := false, versionFilePath := none, versionFileContents := none
      compileAttempted := false, result := some (GoError.wrap e "compile node plugin") }
  | Except.ok _ =>
    let path := nodePluginVersionPath
    let contents := nodePluginVersionContents d.Version
    match writeResult with
    | some e =>
      { writeAttempted := true, versionFilePath := some path
        versionFileContents := some contents, compileAttempted := false
        result := some (GoError.wrap e "write patch version.cjs") }
    | none =>
      match compileResult with
      | some e =>
        { writeAttempted := true, versionFilePath := some path
          versionFileContents := some contents, compileAttempted := true
          result := some (GoError.wrap e "compile node plugin") }
      | none =>
        { writeAttempted := true, versionFilePath := some path
          versionFileContents := some contents, compileAttempted := true, result := none }

/-- Observable outcome of `DistBuilder.copyEncoreRuntimeForJS`: whether the
`cp -r` subprocess was launched, and the returned error. -/
structure CopyTrace where
  copyAttempted : Bool
  result : Option GoError
  deriving DecidableEq, Repr

/-- Model of `DistBuilder.copyEncoreRuntimeForJS`, evaluated in the state
after `<-d.jsBuilder.compileCompleted` has unblocked (the one-shot completion
signal has fired), so `d.jsBuilder.compileFailed` is the settled flag value.
`cpResult` is the outcome of the `cp -r` subprocess together with its
combined output on failure. -/
def DistBuilder.copyEncoreRuntimeForJS (d : DistBuilder)
    (cpResult : Option (GoError × String)) : CopyTrace :=
  if d.jsBuilder.compileFailed then
    { copyAttempted := false, result := some (GoError.new "js build failed") }
  else
    match cpResult with
    | some eo =>
      { copyAttempted := true
        result := some (GoError.wrap eo.1 ("cp js runtime: " ++ eo.2)) }
    | none => { copyAttempted := true, result := none }

/-- Outcomes of the external operations `DistBuilder.Build` performs, in
source order: the directory preparation calls, the aggregate result of
`runParallel` over the eight build steps, and `TarGzip`. -/
structure BuildEnv where
  removeTargetDir : Option GoError
  mkdirTargetDir : Option GoError
  mkdirBinDir : Option GoError
  mkdirRuntimesDir : Option GoError
  mkdirRuntimesGoDir : Option GoError
  mkdirRuntimesJsDir : Option GoError
  parallel : Option GoError
  tarGzip : Option GoError
  deriving DecidableEq, Repr

/-- Observable outcome of `DistBuilder.Build`: the returned error, whether
the concurrent phase (`runParallel`) was started, and whether the archiver
(`TarGzip`) was invoked. -/
structure BuildTrace where
  result : Option GoError
  parallelStarted : Bool
  archiverInvoked : Bool
  deriving DecidableEq, Repr

/-- All six directory-preparation operations of `DistBuilder.Build`
succeeded. -/
def prepOk (env : BuildEnv) : Prop :=
  env.removeTargetDir = none ∧ env.mkdirTargetDir = none ∧ env.mkdirBinDir = none ∧
  env.mkdirRuntimesDir = none ∧ env.mkdirRuntimesGoDir = none ∧ env.mkdirRuntimesJsDir = none

instance (env : BuildEnv) : Decidable (prepOk env) := by
  unfold prepOk; infer_instance

/-- Model of `DistBuilder.Build`: the strictly ordered, fail-fast directory
preparation (each failure wrapped with the label used in the source), then
`runParallel`, then `TarGzip`, the last two wrapped with
`" os: <os>, arch: <arch>"` on failure. -/
def DistBuilder.Build (d : DistBuilder) (env : BuildEnv) : BuildTrace :=
  match env.removeTargetDir with
  | some e =>
    { result := some (GoError.wrap e "remove target dir"), parallelStarted := false
      archiverInvoked := false }
  | none =>
  match env.mkdirTargetDir with
  | some e =>
    { result := some (GoError.wrap e "create target dir"), parallelStarted := false
      archiverInvoked := false }
  | none =>
  match env.mkdirBinDir with
  | some e =>
    { result := some (GoError.wrap e "create bin dir"), parallelStarted := false
      archiverInvoked := false }
  | none =>
  match env.mkdirRuntimesDir with
  | some e =>
    { result := some (GoError.wrap e "create runtimes/go dir"), parallelStarted := false
      archiverInvoked := false }
  | none =>
  match env.mkdirRuntimesGoDir with
  | some e =>
    { result := some (GoError.wrap e "create runtimes/go dir"), parallelStarted := false
      archiverInvoked := false }
  | none =>
  match env.mkdirRuntimesJsDir with
  | some e =>
    { result := some (GoError.wrap e "create runtimes/js dir"), parallelStarted := false
      archiverInvoked := false }
  | none =>
  match env.parallel with
  | some e =>
    { result := some (GoError.wrap e (" os: " ++ d.OS ++ ", arch: " ++ d.Arch))
      parallelStarted := true, archiverInvoked := false }
  | none =>
  match env.tarGzip with
  | some e =>
    { result := some (GoError.wrap e (" os: " ++ d.OS ++ ", arch: " ++ d.Arch))
      parallelStarted := true, archiverInvoked := true }
  | none => { result := none, parallelStarted := true, archiverInvoked := true }

/-! ### Concrete inputs used by witnesses and counterexamples -/

/-- A concrete build request used to evaluate the models on explicit
inputs. -/
def dEx : DistBuilder :=
  { OS := "linux", Arch := "amd64", TSParserPath := "ts-parser"
    DistBuildDir := "dist/linux_amd64"
    ArtifactsTarFile := "artifacts/encore-linux_amd64.tar.gz"
    Version := "1.2.3"
    jsBuilder := { compileFailed := false, DistFolder := "js-dist" } }

/-- A build request whose async JS producer completed with the failure flag
set. -/
def dExJsFailed : DistBuilder :=
  { dEx with jsBuilder := { compileFailed := true, DistFolder := "js-dist" } }

/-- A build request for an OS outside the three recognized by
`buildNodePlugin`. -/
def dExFreebsd : DistBuilder := { dEx with OS := "freebsd" }

/-- A second recognized-OS build request differing from `dEx` in staging
directory, OS, architecture and version. -/
def dExDarwin : DistBuilder :=
  { dEx with OS := "darwin", Arch := "arm64", DistBuildDir := "dist/darwin_arm64"
             Version := "9.9.9" }

/-- An environment where every external operation of `Build` succeeds. -/
def envOk : BuildEnv :=
  { removeTargetDir := none, mkdirTargetDir := none, mkdirBinDir := none
    mkdirRuntimesDir := none, mkdirRuntimesGoDir := none, mkdirRuntimesJsDir := none
    parallel := none, tarGzip := none }

/-- An environment where directory preparation succeeds and the parallel
phase reports an aggregate error. -/
def envParallelFail : BuildEnv := { envOk with parallel := some (GoError.new "fetch failed") }

/-- An environment where creating the `runtimes` directory fails. -/
def envRuntimesFail : BuildEnv := { envOk with mkdirRuntimesDir := some (GoError.new "disk full") }

/-- A build step over a `Nat` counter that increments it and succeeds. -/
def stepInc : Nat → Nat × Option GoError := fun s => (s + 1, none)

/-! ### Lemmas about the parallel task runner -/

theorem recordOutcome_none_outcome (slot : Option GoError) : recordOutcome slot none = slot := rfl

theorem recordOutcome_some_slot (e0 : GoError) (o : Option GoError) :
    recordOutcome (some e0) o = some e0 := by
  cases o <;> rfl

theorem runParallelFrom_some_slot (results : List (Option GoError)) (e0 : GoError) :
    ∀ sched : List Nat, runParallelFrom results (some e0) sched = some e0 := by
  intro sched
  induction sched with
  | nil => rfl
  | cons i rest ih =>
    show runParallelFrom results (recordOutcome (some e0) (results.getD i none)) rest = some e0
    rw [recordOutcome_some_slot]
    exact ih

theorem runParallelFrom_eq_none (results : List (Option GoError)) :
    ∀ (sched : List Nat) (acc : Option GoError),
      runParallelFrom results acc sched = none →
      acc = none ∧ ∀ i ∈ sched, results.getD i none = none := by
  intro sched
  induction sched with
  | nil =>
    intro acc h
    exact ⟨h, by simp⟩
  | cons i rest ih =>
    intro acc h
    have h2 : runParallelFrom results (recordOutcome acc (results.getD i none)) rest = none := h
    obtain ⟨hrec, hall⟩ := ih _ h2
    cases hgd : results.getD i none with
    | none =>
      rw [hgd, recordOutcome_none_outcome] at hrec
      refine ⟨hrec, ?_⟩
      intro j hj
      rcases List.mem_cons.mp hj with hji | hjr
      · rw [hji]
        exact hgd
      · exact hall j hjr
    | some e =>
      exfalso
      rw [hgd] at hrec
      cases acc <;> simp [recordOutcome] at hrec

theorem getD_some_mem (results : List (Option GoError)) (i : Nat) (e : GoError)
    (h : results.getD i none = some e) : some e ∈ results := by
  rw [List.getD_eq_getElem?_getD] at h
  cases hq : results[i]? with
  | none =>
    rw [hq] at h
    simp at h
  | some x =>
    rw [hq] at h
    simp at h
    rw [h] at hq
    exact List.getElem?_mem hq

theorem runParallelFrom_some_mem (results : List (Option GoError)) :
    ∀ (sched : List Nat) (acc : Option GoError) (e : GoError),
      runParallelFrom results acc sched = some e →
      acc = some e ∨ some e ∈ results := by
  intro sched
  induction sched with
  | nil =>
    intro acc e h
    exact Or.inl h
  | cons i rest ih =>
    intro acc e h
    have h2 : runParallelFrom results (recordOutcome acc (results.getD i none)) rest = some e := h
    rcases ih _ e h2 with hrec | hmem
    · cases hgd : results.getD i none with
      | none =>
        rw [hgd, recordOutcome_none_outcome] at hrec
        exact Or.inl hrec
      | some e1 =>
        rw [hgd] at hrec
        cases hacc : acc with
        | none =>
          rw [hacc] at hrec
          have he1 : e1 = e := by simpa [recordOutcome] using hrec
          rw [he1] at hgd
          exact Or.inr (getD_some_mem results i e hgd)
        | some e0 =>
          rw [hacc] at hrec
          have he0 : e0 = e := by simpa [recordOutcome] using hrec
          rw [he0]
          exact Or.inl rfl
    · exact Or.inr hmem

theorem runParallel_eq_head (results : List (Option GoError)) :
    ∀ sched : List Nat,
      runParallel results sched = (sched.filterMap (fun i => results.getD i none)).head? := by
  intro sched
  induction sched with
  | nil => rfl
  | cons i rest ih =>
    cases hgd : results.getD i none with
    | none =>
      have h1 : runParallel results (i :: rest) = runParallel results rest := by
        show runParallelFrom results (recordOutcome none (results.getD i none)) rest = _
        rw [hgd, recordOutcome_none_outcome]
        rfl
      rw [h1, ih]
      simp only [List.filterMap_cons, hgd]
    | some e =>
      have h1 : runParallel results (i :: rest) = some e := by
        show runParallelFrom results (recordOutcome none (results.getD i none)) rest = some e
        rw [hgd]
        exact runParallelFrom_some_slot results e rest
      rw [h1]
      simp only [List.filterMap_cons, hgd, List.head?_cons]

/-- C1: for every step set containing at least one failing step and every
completion schedule (every permutation of the goroutines, i.e. `runParallel`
has waited for all steps), the returned error is the first error recorded
under the mutex — the head of the failing outcomes in schedule order, all
later errors being discarded — and in particular it is non-nil and is the
error of one of the failing steps, never the result of a succeeding step. -/
theorem runParallel_failing_step_error (results : List (Option GoError)) (sched : List Nat)
    (hperm : sched.Perm (List.range results.length)) (e : GoError)
    (hfail : some e ∈ results) :
    runParallel results sched = (sched.filterMap (fun i => results.getD i none)).head? ∧
    ∃ e2, runParallel results sched = some e2 ∧ some e2 ∈ results := by
  refine ⟨runParallel_eq_head results sched, ?_⟩
  obtain ⟨j, hj⟩ := List.mem_iff_get.mp hfail
  have hgd : results.getD j.val none = some e := by
    rw [List.getD_eq_getElem?_getD, List.getElem?_eq_getElem j.isLt]
    rw [List.get_eq_getElem] at hj
    simp [hj]
  have hjs : j.val ∈ sched := hperm.mem_iff.mpr (List.mem_range.mpr j.isLt)
  cases hr : runParallel results sched with
  | none =>
    exfalso
    obtain ⟨-, hall⟩ := runParallelFrom_eq_none results sched none hr
    rw [hall j.val hjs] at hgd
    exact Option.noConfusion hgd
  | some e2 =>
    refine ⟨e2, rfl, ?_⟩
    rcases runParallelFrom_some_mem results sched none e2 hr with hacc | hmem
    · exact Option.noConfusion hacc
    · exact hmem

/-- Witness for C1: a two-step set whose second step fails, under the
schedule where the failing step finishes first. -/
theorem runParallel_failing_step_error_witness :
    runParallel [none, some (GoError.new "boom")] [1, 0] =
      (([1, 0] : List Nat).filterMap
        (fun i => [none, some (GoError.new "boom")].getD i none)).head? ∧
    ∃ e2, runParallel [none, some (GoError.new "boom")] [1, 0] = some e2 ∧
      some e2 ∈ [none, some (GoError.new "boom")] :=
  runParallel_failing_step_error [none, some (GoError.new "boom")] [1, 0]
    (by decide) (GoError.new "boom") (by decide)

theorem runParallelExec_firstErr_aux {σ : Type} (steps : List (σ → σ × Option GoError))
    (hsucc : ∀ f ∈ steps, ∀ s, (f s).2 = none) :
    ∀ (sched : List Nat) (acc : RunState σ), acc.firstErr = none →
      (sched.foldl (runOne steps) acc).firstErr = none := by
  intro sched
  induction sched with
  | nil =>
    intro acc h
    exact h
  | cons i rest ih =>
    intro acc h
    rw [List.foldl_cons]
    apply ih
    cases hq : steps.get? i with
    | none =>
      unfold runOne
      rw [hq]
      exact h
    | some f =>
      have hf : f ∈ steps := by
        rw [List.get?_eq_getElem?] at hq
        exact List.getElem?_mem hq
      unfold runOne
      rw [hq]
      simp [hsucc f hf acc.st, recordOutcome, h]

theorem runParallelExec_completed_aux {σ : Type} (steps : List (σ → σ × Option GoError)) :
    ∀ (sched : List Nat) (acc : RunState σ), (∀ i ∈ sched, i < steps.length) →
      (sched.foldl (runOne steps) acc).completed = acc.completed ++ sched := by
  intro sched
  induction sched with
  | nil =>
    intro acc _
    simp
  | cons i rest ih =>
    intro acc hlt
    rw [List.foldl_cons]
    rw [ih _ (fun j hj => hlt j (List.mem_cons_of_mem i hj))]
    have hi : i < steps.length := hlt i (List.mem_cons_self i rest)
    have hq : steps.get? i = some (steps.get ⟨i, hi⟩) := List.get?_eq_get hi
    unfold runOne
    rw [hq]
    simp

/-- C2: for every non-empty step set in which every step succeeds and every
completion schedule, `runParallel` returns nil, and by the time `wg.Wait`
unblocks the caller every step has run to completion (the completion list is
a permutation of all step indices — a strict join barrier, no step cancelled
early). -/
theorem runParallelExec_all_success {σ : Type} (steps : List (σ → σ × Option GoError))
    (sched : List Nat) (s0 : σ) (hne : steps ≠ [])
    (hperm : sched.Perm (List.range steps.length))
    (hsucc : ∀ f ∈ steps, ∀ s, (f s).2 = none) :
    (runParallelExec steps sched s0).firstErr = none ∧
    (runParallelExec steps sched s0).completed.Perm (List.range steps.length) ∧
    sched ≠ [] := by
  refine ⟨?_, ?_, ?_⟩
  · exact runParallelExec_firstErr_aux steps hsucc sched _ rfl
  · have hlt : ∀ i ∈ sched, i < steps.length := fun i hi =>
      List.mem_range.mp (hperm.mem_iff.mp hi)
    unfold runParallelExec
    rw [runParallelExec_completed_aux steps sched _ hlt]
    simpa using hperm
  · intro hs
    rw [hs] at hperm
    have hrange : List.range steps.length = [] := hperm.symm.eq_nil
    have hlen : steps.length = 0 := by simpa using hrange
    exact hne (List.length_eq_zero.mp hlen)

/-- Witness for C2: a single succeeding step over a counter state. -/
theorem runParallelExec_all_success_witness :
    (runParallelExec [stepInc] [0] 0).firstErr = none ∧
    (runParallelExec [stepInc] [0] 0).completed.Perm (List.range [stepInc].length) ∧
    ([0] : List Nat) ≠ [] :=
  runParallelExec_all_success [stepInc] [0] 0 (by simp)
    (by decide)
    (by
      intro f hf s
      rw [List.mem_singleton] at hf
      rw [hf]
      rfl)

/-- C9: `runParallel` applied to zero build steps: the only schedule is the
empty one (no goroutine is launched), the state is untouched, the completion
list is empty, and the returned error is nil. -/
theorem runParallel_no_steps (σ : Type) (s0 : σ) (sched : List Nat)
    (hperm : sched.Perm (List.range 0)) :
    sched = [] ∧
    runParallelExec ([] : List (σ → σ × Option GoError)) sched s0 =
      { st := s0, firstErr := none, completed := [] } ∧
    runParallel ([] : List (Option GoError)) sched = none := by
  have hs : sched = [] := by simpa using hperm.eq_nil
  rw [hs]
  exact ⟨rfl, rfl, rfl⟩

/-- Witness for C9 at the empty schedule. -/
theorem runParallel_no_steps_witness :
    ([] : List Nat) = [] ∧
    runParallelExec ([] : List (Nat → Nat × Option GoError)) [] 0 =
      { st := 0, firstErr := none, completed := [] } ∧
    runParallel ([] : List (Option GoError)) [] = none :=
  runParallel_no_steps Nat 0 [] (by decide)

/-! ### The orchestrator -/

/-- C3: whenever the parallel task runner (reached only after successful
preparation) returns an error, `Build` returns that error wrapped with the
OS/architecture pair and never invokes the archiver; the archiver is invoked
only when preparation and all build steps succeeded; and an archiver failure
is likewise wrapped with the OS/architecture pair. -/
theorem build_parallel_error_no_archive (d : DistBuilder) (env : BuildEnv) :
    (prepOk env → ∀ e, env.parallel = some e →
      (d.Build env).result = some (GoError.wrap e (" os: " ++ d.OS ++ ", arch: " ++ d.Arch)) ∧
      (d.Build env).archiverInvoked = false) ∧
    ((d.Build env).archiverInvoked = true → prepOk env ∧ env.parallel = none) ∧
    (prepOk env → env.parallel = none → ∀ e, env.tarGzip = some e →
      (d.Build env).result =
        some (GoError.wrap e (" os: " ++ d.OS ++ ", arch: " ++ d.Arch))) := by
  refine ⟨?_, ?_, ?_⟩
  · intro hp e hpar
    obtain ⟨h1, h2, h3, h4, h5, h6⟩ := hp
    unfold DistBuilder.Build
    rw [h1, h2, h3, h4, h5, h6, hpar]
    exact ⟨rfl, rfl⟩
  · intro harch
    unfold DistBuilder.Build at harch
    cases h1 : env.removeTargetDir with
    | some e =>
      rw [h1] at harch
      simp at harch
    | none =>
    rw [h1] at harch
    cases h2 : env.mkdirTargetDir with
    | some e =>
      rw [h2] at harch
      simp at harch
    | none =>
    rw [h2] at harch
    cases h3 : env.mkdirBinDir with
    | some e =>
      rw [h3] at harch
      simp at harch
    | none =>
    rw [h3] at harch
    cases h4 : env.mkdirRuntimesDir with
    | some e =>
      rw [h4] at harch
      simp at harch
    | none =>
    rw [h4] at harch
    cases h5 : env.mkdirRuntimesGoDir with
    | some e =>
      rw [h5] at harch
      simp at harch
    | none =>
    rw [h5] at harch
    cases h6 : env.mkdirRuntimesJsDir with
    | some e =>
      rw [h6] at harch
      simp at harch
    | none =>
    rw [h6] at harch
    cases h7 : env.parallel with
    | some e =>
      rw [h7] at harch
      simp at harch
    | none =>
      exact ⟨⟨h1, h2, h3, h4, h5, h6⟩, rfl⟩
  · intro hp hpar e htz
    obtain ⟨h1, h2, h3, h4, h5, h6⟩ := hp
    unfold DistBuilder.Build
    rw [h1, h2, h3, h4, h5, h6, hpar, htz]

/-- Witness for C3: preparation succeeds, the parallel phase fails. -/
theorem build_parallel_error_no_archive_witness :
    (dEx.Build envParallelFail).result =
      some (GoError.wrap (GoError.new "fetch failed")
        (" os: " ++ dEx.OS ++ ", arch: " ++ dEx.Arch)) ∧
    (dEx.Build envParallelFail).archiverInvoked = false :=
  (build_parallel_error_no_archive dEx envParallelFail).1 (by decide)
    (GoError.new "fetch failed") rfl

/-- C8: fail-fast preparation holds, but the contextual wrap label does not
always correctly identify the failing preparation step: a failure creating
the `runtimes` directory is wrapped `create runtimes/go dir` — the label of
the distinct `runtimes/go` step — while the accompanying source log message
says `failed to create runtimes dir`.  This evaluates `Build` at such an
input: the concurrent phase is never started (fail-fast), yet the label
misidentifies the failed step. -/
theorem build_runtimes_dir_mislabel :
    envRuntimesFail.mkdirRuntimesDir = some (GoError.new "disk full") ∧
    envRuntimesFail.mkdirRuntimesGoDir = none ∧
    (dEx.Build envRuntimesFail).result =
      some (GoError.wrap (GoError.new "disk full") "create runtimes/go dir") ∧
    (dEx.Build envRuntimesFail).parallelStarted = false := by
  exact ⟨rfl, rfl, rfl, rfl⟩

/-! ### The primary-CLI build step -/

/-- C4: the channel-to-suffix mapping of `buildEncoreCLI` is exactly GA ↦
empty, beta ↦ `-beta`, nightly ↦ `-nightly`, development build ↦
`-develop`; and for every version string classified into any other channel
the step returns the configuration error `unknown version channel for
<version>` without invoking the compiler. -/
theorem buildEncoreCLI_channel_suffix_mapping (d : DistBuilder)
    (channelFor : String → Channel) (compileResult : Option GoError) :
    versionSuffixFor d.Version Channel.GA = Except.ok "" ∧
    versionSuffixFor d.Version Channel.Beta = Except.ok "-beta" ∧
    versionSuffixFor d.Version Channel.Nightly = Except.ok "-nightly" ∧
    versionSuffixFor d.Version Channel.DevBuild = Except.ok "-develop" ∧
    (∀ v, channelFor d.Version = Channel.other v →
      (d.buildEncoreCLI channelFor compileResult).compiled = false ∧
      (d.buildEncoreCLI channelFor compileResult).result =
        some (GoError.new ("unknown version channel for " ++ d.Version))) := by
  refine ⟨rfl, rfl, rfl, rfl, ?_⟩
  intro v hv
  unfold DistBuilder.buildEncoreCLI
  rw [hv]
  exact ⟨rfl, rfl⟩

/-- Witness for C4: an unrecognized channel on a concrete build request. -/
theorem buildEncoreCLI_channel_suffix_mapping_witness :
    (dEx.buildEncoreCLI (fun _ => Channel.other "weird") none).compiled = false ∧
    (dEx.buildEncoreCLI (fun _ => Channel.other "weird") none).result =
      some (GoError.new ("unknown version channel for " ++ dEx.Version)) :=
  (buildEncoreCLI_channel_suffix_mapping dEx (fun _ => Channel.other "weird")
    none).2.2.2.2 "weird" rfl

/-- C7 counterexample: for the recognized general-availability channel the
step compiles with only the version linker flag — the linker options list is
exactly the two-element version flag and contains no configuration-directory
flag, refuting that both flags are passed for every recognized channel. -/
theorem buildEncoreCLI_ga_conf_flag_missing :
    (dEx.buildEncoreCLI (fun _ => Channel.GA) none).compiled = true ∧
    (dEx.buildEncoreCLI (fun _ => Channel.GA) none).result = none ∧
    (dEx.buildEncoreCLI (fun _ => Channel.GA) none).linkerOpts =
      ["-X", "\x27encr.dev/internal/version.Version=1.2.3\x27"] := by
  refine ⟨rfl, rfl, ?_⟩
  decide

/-- C7 (amended): the version linker flag is passed for every recognized
channel, and the configuration-directory linker flag is additionally passed
exactly for the beta, nightly and development channels, derived from the
channel suffix; the general-availability channel gets only the version
flag. -/
theorem buildEncoreCLI_linker_flags (d : DistBuilder) (channelFor : String → Channel)
    (compileResult : Option GoError) :
    (channelFor d.Version = Channel.GA →
      (d.buildEncoreCLI channelFor compileResult).compiled = true ∧
      (d.buildEncoreCLI channelFor compileResult).linkerOpts =
        versionLinkerOpts d.Version) ∧
    (channelFor d.Version = Channel.Beta →
      (d.buildEncoreCLI channelFor compileResult).compiled = true ∧
      (d.buildEncoreCLI channelFor compileResult).linkerOpts =
        versionLinkerOpts d.Version ++ confDirLinkerOpts "-beta") ∧
    (channelFor d.Version = Channel.Nightly →
      (d.buildEncoreCLI channelFor compileResult).compiled = true ∧
      (d.buildEncoreCLI channelFor compileResult).linkerOpts =
        versionLinkerOpts d.Version ++ confDirLinkerOpts "-nightly") ∧
    (channelFor d.Version = Channel.DevBuild →
      (d.buildEncoreCLI channelFor compileResult).compiled = true ∧
      (d.buildEncoreCLI channelFor compileResult).linkerOpts =
        versionLinkerOpts d.Version ++ confDirLinkerOpts "-develop") := by
  refine ⟨?_, ?_, ?_, ?_⟩ <;>
    · intro h
      unfold DistBuilder.buildEncoreCLI
      rw [h]
      cases compileResult <;> exact ⟨rfl, rfl⟩

/-- Witness for C7 (amended) at the beta channel. -/
theorem buildEncoreCLI_linker_flags_witness :
    (dEx.buildEncoreCLI (fun _ => Channel.Beta) none).compiled = true ∧
    (dEx.buildEncoreCLI (fun _ => Channel.Beta) none).linkerOpts =
      versionLinkerOpts dEx.Version ++ confDirLinkerOpts "-beta" :=
  (buildEncoreCLI_linker_flags dEx (fun _ => Channel.Beta) none).2.1 rfl

/-! ### The second-runtime copy step -/

/-- C5: after the completion signal of the async producer has fired, the
copy step returns the generic `js build failed` error without launching the
copy subprocess when the failure flag is set, and launches the copy and
returns nil (absent copy-command failure) when the flag is clear. -/
theorem copyEncoreRuntimeForJS_handle (d : DistBuilder) (cpResult : Option (GoError × String)) :
    (d.jsBuilder.compileFailed = true →
      (d.copyEncoreRuntimeForJS cpResult).copyAttempted = false ∧
      (d.copyEncoreRuntimeForJS cpResult).result = some (GoError.new "js build failed")) ∧
    (d.jsBuilder.compileFailed = false →
      (d.copyEncoreRuntimeForJS cpResult).copyAttempted = true ∧
      (cpResult = none → (d.copyEncoreRuntimeForJS cpResult).result = none)) := by
  constructor
  · intro h
    unfold DistBuilder.copyEncoreRuntimeForJS
    rw [h]
    exact ⟨rfl, rfl⟩
  · intro h
    unfold DistBuilder.copyEncoreRuntimeForJS
    rw [h]
    cases cpResult with
    | none => exact ⟨rfl, fun _ => rfl⟩
    | some eo =>
      refine ⟨rfl, ?_⟩
      intro hc
      exact Option.noConfusion hc

/-- Witness for C5: both flag values on concrete requests. -/
theorem copyEncoreRuntimeForJS_handle_witness :
    ((dExJsFailed.copyEncoreRuntimeForJS none).copyAttempted = false ∧
      (dExJsFailed.copyEncoreRuntimeForJS none).result =
        some (GoError.new "js build failed")) ∧
    ((dEx.copyEncoreRuntimeForJS none).copyAttempted = true ∧
      ((none : Option (GoError × String)) = none →
        (dEx.copyEncoreRuntimeForJS none).result = none)) :=
  ⟨(copyEncoreRuntimeForJS_handle dExJsFailed none).1 rfl,
   (copyEncoreRuntimeForJS_handle dEx none).2 rfl⟩

/-! ### The native-plugin build step -/

/-- C6: the artifact-name resolution of `buildNodePlugin` maps darwin, linux
and windows to their OS-specific filenames, and for every other target OS the
step returns an error before the version-stamp file is rewritten and before
any compilation is attempted. -/
theorem buildNodePlugin_unknown_os (d : DistBuilder) (writeResult compileResult : Option GoError) :
    compiledBinaryNameFor "darwin" = Except.ok "libencore_js_runtime.dylib" ∧
    compiledBinaryNameFor "linux" = Except.ok "libencore_js_runtime.so" ∧
    compiledBinaryNameFor "windows" = Except.ok "encore_js_runtime.dll" ∧
    (d.OS ≠ "darwin" → d.OS ≠ "linux" → d.OS ≠ "windows" →
      (d.buildNodePlugin writeResult compileResult).writeAttempted = false ∧
      (d.buildNodePlugin writeResult compileResult).compileAttempted = false ∧
      (d.buildNodePlugin writeResult compileResult).result =
        some (GoError.wrap (GoError.new ("unknown OS: " ++ d.OS)) "compile node plugin")) := by
  refine ⟨rfl, rfl, rfl, ?_⟩
  intro h1 h2 h3
  have hname : compiledBinaryNameFor d.OS =
      Except.error (GoError.new ("unknown OS: " ++ d.OS)) := by
    unfold compiledBinaryNameFor
    rw [if_neg h1, if_neg h2, if_neg h3]
  unfold DistBuilder.buildNodePlugin
  rw [hname]
  exact ⟨rfl, rfl, rfl⟩

/-- Witness for C6: a build request targeting freebsd. -/
theorem buildNodePlugin_unknown_os_witness :
    (dExFreebsd.buildNodePlugin none none).writeAttempted = false ∧
    (dExFreebsd.buildNodePlugin none none).compileAttempted = false ∧
    (dExFreebsd.buildNodePlugin none none).result =
      some (GoError.wrap (GoError.new ("unknown OS: " ++ dExFreebsd.OS))
        "compile node plugin") :=
  (buildNodePlugin_unknown_os dExFreebsd none none).2.2.2 (by decide) (by decide) (by decide)

theorem buildNodePlugin_write_fields (d : DistBuilder) (w c : Option GoError) :
    (d.buildNodePlugin w c).writeAttempted = true →
    (d.buildNodePlugin w c).versionFilePath = some nodePluginVersionPath ∧
    (d.buildNodePlugin w c).versionFileContents =
      some (nodePluginVersionContents d.Version) := by
  unfold DistBuilder.buildNodePlugin
  cases hcb : compiledBinaryNameFor d.OS with
  | error e =>
    intro h
    exact absurd h (by simp)
  | ok name =>
    cases w <;> cases c <;> intro h <;> exact ⟨rfl, rfl⟩

/-- C10: whenever `buildNodePlugin` writes the version-stamp file it writes
it at the fixed path `runtimes/jscore/api/version.cjs` relative to the
process working directory — the same path for every pair of builds,
independent of the staging directory, OS and architecture of the request —
and two builds with equal `Version` fields write identical contents. -/
theorem buildNodePlugin_version_stamp_fixed (d1 d2 : DistBuilder)
    (w1 c1 w2 c2 : Option GoError) :
    nodePluginVersionPath = "runtimes/jscore/api/version.cjs" ∧
    ((d1.buildNodePlugin w1 c1).writeAttempted = true →
      (d2.buildNodePlugin w2 c2).writeAttempted = true →
      (d1.buildNodePlugin w1 c1).versionFilePath = some "runtimes/jscore/api/version.cjs" ∧
      (d1.buildNodePlugin w1 c1).versionFilePath = (d2.buildNodePlugin w2 c2).versionFilePath ∧
      (d1.Version = d2.Version →
        (d1.buildNodePlugin w1 c1).versionFileContents =
          (d2.buildNodePlugin w2 c2).versionFileContents)) := by
  have hpath : nodePluginVersionPath = "runtimes/jscore/api/version.cjs" := by decide
  refine ⟨hpath, ?_⟩
  intro h1 h2
  obtain ⟨hp1, hc1⟩ := buildNodePlugin_write_fields d1 w1 c1 h1
  obtain ⟨hp2, hc2⟩ := buildNodePlugin_write_fields d2 w2 c2 h2
  refine ⟨by rw [hp1, hpath], by rw [hp1, hp2], ?_⟩
  intro hv
  rw [hc1, hc2, hv]

/-- Witness for C10: a linux/amd64 and a darwin/arm64 request with different
staging directories and versions. -/
theorem buildNodePlugin_version_stamp_fixed_witness :
    nodePluginVersionPath = "runtimes/jscore/api/version.cjs" ∧
    ((dEx.buildNodePlugin none none).versionFilePath =
        some "runtimes/jscore/api/version.cjs" ∧
      (dEx.buildNodePlugin none none).versionFilePath =
        (dExDarwin.buildNodePlugin none none).versionFilePath ∧
      (dEx.Version = dExDarwin.Version →
        (dEx.buildNodePlugin none none).versionFileContents =
          (dExDarwin.buildNodePlugin none none).versionFileContents)) :=
  ⟨(buildNodePlugin_version_stamp_fixed dEx dExDarwin none none none none).1,
   (buildNodePlugin_version_stamp_fixed dEx dExDarwin none none none none).2
     (by decide) (by decide)⟩
